import Mathlib

/-!
# Verification of the Decepticon agent framework against its specification

Shallow embedding of the message processor (`frontend/message.py`),
tool-name parsing (`src/utils/message.py`), the tmux tool server
(`src/tools/mcp/terminal.py`), shell command execution
(`src/tools/command_execution.py`), the minimal session logger and replay
system (`src/utils/logging/minimal_logger.py`,
`src/utils/logging/simple_replay.py`), and user-id derivation (`app.py`).

Python strings are modelled as Lean `String`; Python `dict` messages with
a known key set are modelled as structures whose fields are `Option`-valued
(`none` = key absent / value `None`).  Library calls that reach outside the
process (subprocess results, `hashlib.md5`, `hash`, `datetime.now`) are
passed in as explicit parameters, so every function here is pure and
executable.
-/

namespace Decepticon

/-! ## Python string primitives

All primitives are structural recursions over the character list of the
string, so that every definition in this file evaluates by kernel
reduction. -/

/-- Python `str.lower()` (ASCII). -/
def pyLower (s : String) : String := ⟨s.data.map Char.toLower⟩

/-- Fuel-indexed worker for `pyReplace`; the fuel starts at the string
length and each step consumes at least one character (for a nonempty
pattern), so it never runs out. -/
def replaceFuel (old new : List Char) : Nat → List Char → List Char
  | 0, s => s
  | fuel + 1, s =>
    match s with
    | [] => []
    | c :: cs =>
      if old.isPrefixOf s && !old.isEmpty then
        new ++ replaceFuel old new fuel (List.drop old.length s)
      else
        c :: replaceFuel old new fuel cs

/-- Python `s.replace(old, new)` for a nonempty `old`: replace every
(non-overlapping, leftmost-first) occurrence. -/
def pyReplace (s old new : String) : String :=
  ⟨replaceFuel old.data new.data s.data.length s.data⟩

/-- Python `s.startswith(pre)`. -/
def pyStartswith (s pre : String) : Bool := pre.data.isPrefixOf s.data

/-- Worker for `pyIn`: does `sub` occur as a contiguous sublist? -/
def containsAux (sub : List Char) : List Char → Bool
  | [] => sub.isEmpty
  | c :: cs => sub.isPrefixOf (c :: cs) || containsAux sub cs

/-- Fuel-indexed worker for `pySplit` (nonempty separator). -/
def splitFuel (sep : List Char) : Nat → List Char → List Char → List (List Char)
  | 0, acc, rest => [acc.reverse ++ rest]
  | fuel + 1, acc, s =>
    match s with
    | [] => [acc.reverse]
    | c :: cs =>
      if sep.isPrefixOf s && !sep.isEmpty then
        acc.reverse :: splitFuel sep fuel [] (List.drop sep.length s)
      else
        splitFuel sep fuel (c :: acc) cs

/-- Python `s.split(sep)` for a nonempty separator `sep`. -/
def pySplit (s sep : String) : List String :=
  (splitFuel sep.data s.data.length [] s.data).map (fun l => String.mk l)

/-- Python `s.strip()`: remove leading and trailing whitespace. -/
def pyStrip (s : String) : String :=
  ⟨((s.data.dropWhile Char.isWhitespace).reverse.dropWhile Char.isWhitespace).reverse⟩

/-- Python slice `s[:n]`. -/
def pyTake (s : String) (n : Nat) : String := ⟨s.data.take n⟩

/-- Python `str.title()`: an alphabetic character is uppercased when the
previous character is not alphabetic and lowercased otherwise. -/
def pyTitleAux : List Char → Bool → List Char
  | [], _ => []
  | c :: cs, prevCased =>
    if c.isAlpha then
      (if prevCased then c.toLower else c.toUpper) :: pyTitleAux cs true
    else
      c :: pyTitleAux cs false

/-- Python `str.title()`. -/
def pyTitle (s : String) : String := ⟨pyTitleAux s.data false⟩

/-- Python `str.capitalize()`: first character uppercased, rest lowercased. -/
def pyCapitalize (s : String) : String :=
  match s.data with
  | [] => ""
  | c :: cs => ⟨c.toUpper :: cs.map Char.toLower⟩

/-- Python `sub in s` substring membership. -/
def pyIn (sub s : String) : Bool := containsAux sub.data s.data

/-- Python truthiness of an optional string: `None` and `""` are falsy. -/
def truthyStr : Option String → Bool
  | none => false
  | some s => !(s == "")

/-- Python `x or d` for an optional string `x` and string default `d`. -/
def pyOrStr (o : Option String) (d : String) : String :=
  match o with
  | none => d
  | some s => if s == "" then d else s

/-- Python `f"...{x}..."` rendering of an optional string (`None` prints
as `"None"`). -/
def pyShowOpt : Option String → String
  | none => "None"
  | some s => s

/-! ## Tool-name parsing (`src/utils/message.py`, `parse_tool_name`) -/

/-- `parse_tool_name` from `src/utils/message.py`: a name starting with
`transfer_to_` is turned into `Transfer to <Target>`; every other name
(including `handoff_to_...` names) has underscores replaced by spaces and
is title-cased. -/
def parseToolName (toolName : String) : String :=
  if pyStartswith toolName "transfer_to_" then
    "Transfer to " ++ pyTitle (pyReplace (pyReplace toolName "transfer_to_" "") "_" " ")
  else
    pyTitle (pyReplace toolName "_" " ")

/-! ## CLI message processor (`frontend/message.py`) -/

/-- A raw graph event as consumed by `CLIMessageProcessor.process_cli_event`
(`event_data` dict).  `raw_message` is read by the code but never used. -/
structure EventData where
  message_type : Option String := none
  agent_name : Option String := none
  content : Option String := none
  tool_name : Option String := none
  tool_display_name : Option String := none
  raw_message : Option String := none
deriving DecidableEq, Repr

/-- A frontend message dict as produced by `process_cli_event`; absent keys
are `none`. -/
structure PyMsg where
  type : Option String := none
  agent_id : Option String := none
  display_name : Option String := none
  avatar : Option String := none
  content : Option String := none
  id : Option String := none
  tool_name : Option String := none
  tool_display_name : Option String := none
deriving DecidableEq, Repr

/-- The `agent_avatars` insertion-ordered dict of `CLIMessageProcessor`. -/
def agentAvatars : List (String × String) :=
  [("planner", "🧠"), ("reconnaissance", "🔍"), ("initial_access", "🔑"),
   ("execution", "💻"), ("persistence", "🔐"), ("privilege_escalation", "🔒"),
   ("defense_evasion", "🕵️"), ("summary", "📋")]

/-- `CLIMessageProcessor._get_agent_display_name`. -/
def getAgentDisplayName (agentName : String) : String :=
  if agentName == "" || agentName == "Unknown" then "Unknown Agent"
  else if pyIn "_" agentName then pyTitle (pyReplace agentName "_" " ")
  else pyCapitalize agentName

/-- `CLIMessageProcessor._get_agent_avatar`: first avatar whose key partially
matches the lowercased agent name, else the default robot avatar. -/
def getAgentAvatar (agentName : String) : String :=
  if agentName == "" then "🤖"
  else
    let agentKey := pyLower agentName
    match agentAvatars.find? (fun kv => pyIn kv.1 agentKey || pyIn agentKey kv.1) with
    | some kv => kv.2
    | none => "🤖"

/-- `CLIMessageProcessor.process_cli_event`.  The Python builtin `hash`
(of the content prefix) is the parameter `h`; the rendered
`datetime.now().timestamp()` is the parameter `t`. -/
def processCliEvent (h : String → Int) (t : String) (e : EventData) : PyMsg :=
  let messageType := e.message_type.getD ""
  let agentName := e.agent_name.getD "Unknown"
  let content := e.content.getD ""
  let displayName := getAgentDisplayName agentName
  let avatar := getAgentAvatar agentName
  if messageType == "ai" then
    { type := some "ai", agent_id := some (pyLower agentName),
      display_name := some displayName, avatar := some avatar,
      content := some content,
      id := some ("ai_" ++ pyLower agentName ++ "_" ++ toString (h (pyTake content 100)) ++ "_" ++ t) }
  else if messageType == "tool" then
    let toolName := e.tool_name.getD "Unknown Tool"
    let toolDisplayName := e.tool_display_name.getD (parseToolName toolName)
    { type := some "tool", tool_name := some toolName,
      tool_display_name := some toolDisplayName, content := some content,
      id := some ("tool_" ++ toolName ++ "_" ++ toString (h (pyTake content 100)) ++ "_" ++ t) }
  else if messageType == "user" then
    { type := some "user", content := some content,
      id := some ("user_" ++ toString (h content) ++ "_" ++ t) }
  else
    { type := some "ai", agent_id := some (pyLower agentName),
      display_name := some displayName, avatar := some avatar,
      content := some content,
      id := some ("ai_" ++ pyLower agentName ++ "_" ++ toString (h (pyTake content 100)) ++ "_" ++ t) }

/-- `CLIMessageProcessor.is_duplicate_message`: a falsy `id` is never a
duplicate; otherwise check exact id match, then matching
`(agent_id, type, content)` against each existing message.  Python compares
`msg.get("content")` (possibly `None`) to `new_message.get("content", "")`
(a string), so a missing existing content never equals a missing new one. -/
def isDuplicateMessage (newMsg : PyMsg) (existing : List PyMsg) : Bool :=
  if !truthyStr newMsg.id then false
  else if existing.any (fun m => m.id == newMsg.id) then true
  else if existing.any (fun m =>
      m.agent_id == newMsg.agent_id && m.type == newMsg.type &&
      m.content == some (newMsg.content.getD "")) then true
  else false

/-! ## Tool server (`src/tools/mcp/terminal.py`) -/

/-- Outcome of one `subprocess.run` call that completed (no exception). -/
structure RunResult where
  returncode : Int
  stdout : String
  stderr : String
deriving DecidableEq, Repr

/-- One tmux-level action performed (or not) by the tool server. -/
inductive TmuxAction where
  | sendKeys (session command : String)
  | sleepMs (ms : Nat)
  | capturePane (session : String)
  | waitFor (channel : String)
deriving DecidableEq, Repr

/-- The sequence of tmux actions performed by `command_exec` in
`src/tools/mcp/terminal.py`: send the keystrokes, and if that subprocess
succeeded, sleep a fixed 500 ms and capture the pane.  No other actions
occur in the function body. -/
def commandExecTrace (sendRes : RunResult) (session command : String) : List TmuxAction :=
  if sendRes.returncode ≠ 0 then
    [.sendKeys session command]
  else
    [.sendKeys session command, .sleepMs 500, .capturePane session]

/-- The value returned (or exception raised, as `.error`) by `command_exec`,
as a function of the two subprocess results. -/
def commandExecResult (sendRes captureRes : RunResult) : Except String String :=
  if sendRes.returncode ≠ 0 then
    .error ("Failed to execute command: Failed to send command: " ++ sendRes.stderr)
  else if captureRes.returncode ≠ 0 then
    .error ("Failed to execute command: Failed to capture output: " ++ captureRes.stderr)
  else
    .ok (pyStrip captureRes.stdout)

/-- Outcome of a `subprocess.run` call that may also raise (timeout or any
other exception). -/
inductive SubprocOutcome where
  | completed (r : RunResult)
  | raised
deriving DecidableEq, Repr

/-- The accumulation loop of `session_list`: for each line of stdout with
non-blank `line.strip()`, append `line.split(':')[0].strip()`. -/
def sessionListLines : List String → List String
  | [] => []
  | line :: rest =>
    if pyStrip line ≠ "" then
      pyStrip ((pySplit line ":").headD "") :: sessionListLines rest
    else
      sessionListLines rest

/-- `session_list` from `src/tools/mcp/terminal.py`: an exception or a
non-zero exit of `tmux list-sessions` yields `[]`; otherwise the stripped
stdout is split into lines and each non-blank line contributes its first
colon-delimited field. -/
def sessionList (res : SubprocOutcome) : List String :=
  match res with
  | .raised => []
  | .completed r =>
    if r.returncode ≠ 0 then []
    else sessionListLines (pySplit (pyStrip r.stdout) "\n")

/-! ## Shell command execution (`src/tools/command_execution.py`) -/

/-- The subprocess results observed by a run of `command_execution` when no
exception is raised: the `docker ps` availability check, the `docker ps -a`
container-existence check, the `docker ps` running check, the
`docker start` result, and the `docker exec` result. -/
structure ExecEnv where
  dockerCheck : RunResult
  containerCheck : RunResult
  runningCheck : RunResult
  startResult : RunResult
  execResult : RunResult
deriving DecidableEq, Repr

/-- A Python exception escaping one of the subprocess calls. -/
inductive PyExc where
  | fileNotFound
  | other (msg ty : String)
deriving DecidableEq, Repr

/-- The non-exceptional body of `command_execution`: the chain of docker
checks, container start, and command run, each failure returning an
ordinary string prefixed `[-]`. -/
def commandExecutionBody (env : ExecEnv) : String :=
  if env.dockerCheck.returncode ≠ 0 then
    "[-] Docker is not available: " ++ pyStrip env.dockerCheck.stderr
  else if !(pyIn "attacker" env.containerCheck.stdout) then
    "[-] Container 'attacker' does not exist"
  else if !(pyIn "attacker" env.runningCheck.stdout) && env.startResult.returncode ≠ 0 then
    "[-] Failed to start container 'attacker': " ++ pyStrip env.startResult.stderr
  else if env.execResult.returncode ≠ 0 then
    "[-] Command execution error: " ++ pyStrip env.execResult.stderr
  else
    pyStrip env.execResult.stdout

/-- `command_execution` from `src/tools/command_execution.py`: any raised
exception is caught by the surrounding `try` and rendered as an error
string; otherwise the body runs. -/
def commandExecution (exc : Option PyExc) (env : ExecEnv) : String :=
  match exc with
  | some .fileNotFound => "[-] Docker command not found. Is Docker installed and in PATH?"
  | some (.other m ty) => "[-] Error: " ++ m ++ " (Type: " ++ ty ++ ")"
  | none => commandExecutionBody env

/-! ## Minimal session logger (`src/utils/logging/minimal_logger.py`) -/

/-- `EventType` enum: the four replayable event kinds. -/
inductive EventType where
  | user_input
  | agent_response
  | tool_command
  | tool_output
deriving DecidableEq, Repr

/-- The `.value` string of an `EventType` member. -/
def EventType.value : EventType → String
  | .user_input => "user_input"
  | .agent_response => "agent_response"
  | .tool_command => "tool_command"
  | .tool_output => "tool_output"

/-- `MinimalEvent` dataclass. -/
structure MinimalEvent where
  event_type : EventType
  timestamp : String
  content : String
  agent_name : Option String := none
  tool_name : Option String := none
deriving DecidableEq, Repr

/-- `MinimalEvent.to_dict`: base keys plus `agent_name` / `tool_name` only
when truthy. -/
def minimalEventToDict (e : MinimalEvent) : List (String × String) :=
  [("event_type", e.event_type.value), ("timestamp", e.timestamp), ("content", e.content)]
  ++ (if truthyStr e.agent_name then [("agent_name", e.agent_name.getD "")] else [])
  ++ (if truthyStr e.tool_name then [("tool_name", e.tool_name.getD "")] else [])

/-- `MinimalSession` dataclass. -/
structure MinimalSession where
  session_id : String
  start_time : String
  events : List MinimalEvent
deriving DecidableEq, Repr

/-- A JSON value as it appears in a persisted session document: either a
plain string or the array of event dicts. -/
inductive SessionJsonVal where
  | str (s : String)
  | evArr (events : List (List (String × String)))
deriving DecidableEq, Repr

/-- `MinimalSession.to_dict`: the exact key/value pairs serialised to the
session JSON file by `MinimalLogger.save_session`. -/
def minimalSessionToDict (s : MinimalSession) : List (String × SessionJsonVal) :=
  [("session_id", .str s.session_id),
   ("start_time", .str s.start_time),
   ("events", .evArr (s.events.map minimalEventToDict))]

/-- `MinimalLogger._get_session_file_path`: `<base>/<YYYY/MM/DD>/session_<id>.json`. -/
def sessionFilePath (base dateStr sessionId : String) : String :=
  base ++ "/" ++ dateStr ++ "/session_" ++ sessionId ++ ".json"

/-! ## Replay system (`src/utils/logging/simple_replay.py`) -/

/-- A frontend message dict emitted by
`SimpleReplaySystem._convert_to_frontend_message`; the nested `data` dict is
flattened into `data_content` / `data_command`. -/
structure ReplayMsg where
  type : String
  agent_id : Option String := none
  display_name : Option String := none
  avatar : Option String := none
  content : Option String := none
  data_content : Option String := none
  data_command : Option String := none
  timestamp : String
  id : Option String := none
deriving DecidableEq, Repr

/-- `SimpleReplaySystem._get_agent_avatar`: first avatar whose key is a
substring of the lowercased agent name (falsy name gives the default). -/
def replayAgentAvatar (agentName : Option String) : String :=
  if !truthyStr agentName then "🤖"
  else
    let agentKey := pyLower (agentName.getD "")
    match ([("supervisor", "👨‍💼"), ("planner", "🧠"), ("reconnaissance", "🔍"),
            ("initial_access", "🔑"), ("execution", "💻"), ("persistence", "🔐"),
            ("privilege_escalation", "🔒"), ("defense_evasion", "🕵️"),
            ("summary", "📋")].find? (fun kv => pyIn kv.1 agentKey)) with
    | some kv => kv.2
    | none => "🤖"

/-- `SimpleReplaySystem._convert_to_frontend_message`, with the
`datetime.now().isoformat()` timestamp as parameter `t`.  The trailing
`return None` of the Python function is unreachable because `EventType`
has exactly the four handled members. -/
def convertToFrontendMessage (t : String) (e : MinimalEvent) : Option ReplayMsg :=
  match e.event_type with
  | .user_input =>
    some { type := "user", content := some e.content, timestamp := t }
  | .agent_response =>
    some { type := "agent",
           agent_id := some (if truthyStr e.agent_name
                             then pyLower (e.agent_name.getD "") else "agent"),
           display_name := some (pyOrStr e.agent_name "Agent"),
           avatar := some (replayAgentAvatar e.agent_name),
           data_content := some e.content, timestamp := t,
           id := some ("replay_agent_" ++ pyShowOpt e.agent_name ++ "_" ++ t) }
  | .tool_command =>
    some { type := "tool_command",
           display_name := some (pyOrStr e.tool_name "Tool"),
           avatar := some "🔧",
           data_command := some e.content, timestamp := t,
           id := some ("replay_tool_cmd_" ++ pyShowOpt e.tool_name ++ "_" ++ t) }
  | .tool_output =>
    some { type := "tool_output",
           display_name := some (pyOrStr e.tool_name "Tool"),
           avatar := some "🔧",
           data_content := some e.content, timestamp := t,
           id := some ("replay_tool_out_" ++ pyShowOpt e.tool_name ++ "_" ++ t) }

/-- `SimpleReplaySystem.execute_replay`: iterate the session's events in
order, convert each, and append every converted message.  No LLM or tool is
invoked: the output is a pure function of the log. -/
def executeReplay (t : String) (events : List MinimalEvent) : List ReplayMsg :=
  events.filterMap (convertToFrontendMessage t)

/-- A logged event as the logger methods produce it: `log_agent_response`
always passes an agent name and `log_tool_command` / `log_tool_output`
always pass a tool name, and callers pass non-empty names. -/
def wellFormedEvent (e : MinimalEvent) : Bool :=
  match e.event_type with
  | .user_input => true
  | .agent_response => truthyStr e.agent_name
  | .tool_command => truthyStr e.tool_name
  | .tool_output => truthyStr e.tool_name

/-- The record a UI consumer reads back out of a replayed frontend message:
its kind, its content, and the displayed agent/tool name. -/
def msgView (m : ReplayMsg) : Option (EventType × String × Option String) :=
  if m.type == "user" then some (.user_input, m.content.getD "", none)
  else if m.type == "agent" then some (.agent_response, m.data_content.getD "", m.display_name)
  else if m.type == "tool_command" then some (.tool_command, m.data_command.getD "", m.display_name)
  else if m.type == "tool_output" then some (.tool_output, m.data_content.getD "", m.display_name)
  else none

/-- The corresponding record of a logged event: its kind, its content, and
its agent or tool name. -/
def logView (e : MinimalEvent) : EventType × String × Option String :=
  (e.event_type, e.content,
   match e.event_type with
   | .user_input => none
   | .agent_response => e.agent_name
   | .tool_command => e.tool_name
   | .tool_output => e.tool_name)

/-! ## User-id derivation (`app.py`, `_initialize_user_session`) -/

/-- `_initialize_user_session` user-id derivation:
`"user_" + hashlib.md5(fingerprint + dateBucket).hexdigest()[:8]`.
`hashlib.md5(...).hexdigest()` is an external library call, modelled as the
parameter `md5hex`; a real MD5 hex digest always has 32 characters. -/
def generateUserId (md5hex : String → String) (fingerprint dateBucket : String) : String :=
  "user_" ++ pyTake (md5hex (fingerprint ++ dateBucket)) 8

/-- A concrete four-event session log, one event of each kind. -/
def sampleLog : List MinimalEvent :=
  [⟨.user_input, "t0", "scan 127.0.0.1", none, none⟩,
   ⟨.agent_response, "t1", "I will start with nmap", some "reconnaissance", none⟩,
   ⟨.tool_command, "t2", "nmap -sV 127.0.0.1", none, some "command_exec"⟩,
   ⟨.tool_output, "t3", "80/tcp open http", none, some "command_exec"⟩]

/-! ## Helper lemmas -/

theorem length_pos_append_left (s t : String) (h : 0 < s.length) : 0 < (s ++ t).length := by
  rw [String.length_append]
  omega

theorem truthyStr_some_of_pos (s : String) (h : 0 < s.length) : truthyStr (some s) = true := by
  have hne : s ≠ "" := by
    intro he
    rw [he] at h
    exact absurd h (by decide)
  simp [truthyStr, hne]

theorem pyOrStr_of_truthy (o : Option String) (d : String) (h : truthyStr o = true) :
    some (pyOrStr o d) = o := by
  cases o with
  | none => simp [truthyStr] at h
  | some s =>
    have hne : ¬ (s = "") := by simpa [truthyStr] using h
    simp [pyOrStr, hne]

theorem isDup_of_matching_mem (newMsg old : PyMsg) (l : List PyMsg)
    (hmem : old ∈ l)
    (hid : truthyStr newMsg.id = true)
    (ha : old.agent_id = newMsg.agent_id) (hty : old.type = newMsg.type)
    (hc : old.content = some (newMsg.content.getD "")) :
    isDuplicateMessage newMsg l = true := by
  unfold isDuplicateMessage
  rw [hid]
  simp only [Bool.not_true, Bool.false_eq_true, if_false]
  cases h1 : l.any (fun m => m.id == newMsg.id) with
  | true => simp
  | false =>
    simp only [if_false, Bool.false_eq_true]
    have h2 : l.any (fun m =>
        m.agent_id == newMsg.agent_id && m.type == newMsg.type &&
        m.content == some (newMsg.content.getD "")) = true := by
      rw [List.any_eq_true]
      exact ⟨old, hmem, by simp [ha, hty, hc]⟩
    simp [h2]

theorem isDup_of_matching_mid (newMsg old : PyMsg) (pre post : List PyMsg)
    (hid : truthyStr newMsg.id = true)
    (ha : old.agent_id = newMsg.agent_id) (hty : old.type = newMsg.type)
    (hc : old.content = some (newMsg.content.getD "")) :
    isDuplicateMessage newMsg (pre ++ old :: post) = true :=
  isDup_of_matching_mem newMsg old _ (by simp) hid ha hty hc

theorem sessionListLines_eq_filter_map (L : List String) :
    sessionListLines L =
      (L.filter (fun l => !(pyStrip l == ""))).map
        (fun l => pyStrip ((pySplit l ":").headD "")) := by
  induction L with
  | nil => rfl
  | cons l rest ih =>
    by_cases hc : pyStrip l = ""
    · simp [sessionListLines, List.filter_cons, hc, ih]
    · simp [sessionListLines, List.filter_cons, hc, ih]

/-! ## Claim theorems -/

/-- C1, counterexample: `command_exec` performs no `tmux wait-for` action at
all — on a successful send for session `s1` and command `whoami` its action
trace does not contain blocking on the channel `done-s1`. -/
theorem commandExec_waitFor_absent :
    TmuxAction.waitFor "done-s1" ∉ commandExecTrace ⟨0, "", ""⟩ "s1" "whoami" := by
  decide

/-- C1, amended: for every successful `send-keys` subprocess, `command_exec`
sends the command to the tmux session, sleeps a fixed 500 ms, and then
captures the pane; no `wait-for` synchronisation on any channel occurs, so
the capture is not synchronised with the command's completion. -/
theorem commandExec_sleep_then_capture (sendRes : RunResult) (session command : String)
    (h : sendRes.returncode = 0) :
    commandExecTrace sendRes session command =
      [.sendKeys session command, .sleepMs 500, .capturePane session] ∧
    ∀ ch, TmuxAction.waitFor ch ∉ commandExecTrace sendRes session command := by
  constructor
  · simp [commandExecTrace, h]
  · intro ch
    simp [commandExecTrace, h]

/-- C1, witness for the amended theorem at a concrete successful send. -/
theorem commandExec_sleep_then_capture_witness :
    commandExecTrace ⟨0, "", ""⟩ "s1" "whoami" =
      [.sendKeys "s1" "whoami", .sleepMs 500, .capturePane "s1"] ∧
    ∀ ch, TmuxAction.waitFor ch ∉ commandExecTrace ⟨0, "", ""⟩ "s1" "whoami" :=
  commandExec_sleep_then_capture ⟨0, "", ""⟩ "s1" "whoami" rfl

/-- C7, counterexample: `parse_tool_name` does not strip the `handoff_to_`
convention — `handoff_to_planner` is rendered `Handoff To Planner`, not
`Transfer to Planner`. -/
theorem parseToolName_handoff_not_stripped :
    parseToolName "handoff_to_planner" ≠ "Transfer to Planner" ∧
    parseToolName "handoff_to_planner" = "Handoff To Planner" := by
  constructor
  · decide
  · decide

/-- C7, amended: only the `transfer_to_` convention is stripped and rendered
as `Transfer to <Target>`; every other tool name — including `handoff_to_`
names — merely has underscores replaced by spaces and is title-cased, so the
two handoff conventions are NOT rendered the same way. -/
theorem parseToolName_transfer_only :
    (∀ s, pyStartswith s "transfer_to_" = false →
      parseToolName s = pyTitle (pyReplace s "_" " ")) ∧
    parseToolName "transfer_to_planner" = "Transfer to Planner" ∧
    parseToolName "handoff_to_planner" = "Handoff To Planner" := by
  refine ⟨?_, by decide, by decide⟩
  intro s hs
  simp [parseToolName, hs]

/-- C7, witness for the amended theorem at the `handoff_to_planner` input. -/
theorem parseToolName_transfer_only_witness :
    pyStartswith "handoff_to_planner" "transfer_to_" = false ∧
    parseToolName "handoff_to_planner" =
      pyTitle (pyReplace "handoff_to_planner" "_" " ") :=
  ⟨by decide, parseToolName_transfer_only.1 "handoff_to_planner" (by decide)⟩

/-- C8, counterexample: a concrete saved session document contains no model
label — looking up `model` (or `model_label`) in the serialised dict of a
one-event session yields nothing. -/
theorem sessionToDict_no_model_field :
    ((minimalSessionToDict
        ⟨"sid", "2025-10-12T00:00:00",
         [⟨.user_input, "ts", "hello", none, none⟩]⟩).lookup "model") = none ∧
    ((minimalSessionToDict
        ⟨"sid", "2025-10-12T00:00:00",
         [⟨.user_input, "ts", "hello", none, none⟩]⟩).lookup "model_label") = none := by
  decide

/-- C8, amended: every session is saved as a single JSON document at
`<base>/<YYYY/MM/DD>/session_<id>.json` whose top-level keys are exactly
`session_id`, `start_time` and `events`; no model label is persisted. -/
theorem sessionToDict_fields (s : MinimalSession) :
    (minimalSessionToDict s).map Prod.fst = ["session_id", "start_time", "events"] ∧
    (minimalSessionToDict s).lookup "session_id" = some (.str s.session_id) ∧
    (minimalSessionToDict s).lookup "start_time" = some (.str s.start_time) ∧
    (minimalSessionToDict s).lookup "events" =
      some (.evArr (s.events.map minimalEventToDict)) ∧
    ∀ dateStr sid, sessionFilePath "logs" dateStr sid =
      "logs/" ++ dateStr ++ "/session_" ++ sid ++ ".json" := by
  exact ⟨rfl, rfl, rfl, rfl, fun dateStr sid => rfl⟩

/-- C10: a new message whose `id` is missing or falsy is never classified as
a duplicate, whatever the existing messages are. -/
theorem falsy_id_never_duplicate (n : PyMsg) (ex : List PyMsg)
    (h : n.id = none ∨ n.id = some "") :
    isDuplicateMessage n ex = false := by
  unfold isDuplicateMessage
  rcases h with h | h <;> simp [truthyStr, h]

/-- C2, counterexample: the message ID is not a function of the payload
alone — the same raw user event processed at two different times gets two
different IDs, because `process_cli_event` appends
`datetime.now().timestamp()` to every ID. -/
theorem processCliEvent_id_time_dependent :
    (processCliEvent (fun _ => 0) "100.0"
      { message_type := some "user", content := some "x" }).id ≠
    (processCliEvent (fun _ => 0) "200.0"
      { message_type := some "user", content := some "x" }).id := by
  decide

/-- C2, amended: the emitted message (ID included) is a deterministic
function of the event's payload fields (`message_type`, `agent_name`,
`content`, `tool_name`, `tool_display_name`) together with the processing
timestamp; in particular it is independent of `raw_message`.  Re-processing
the same raw event at the same timestamp yields the identical message, but
distinct timestamps yield distinct IDs. -/
theorem processCliEvent_payload_time_deterministic (h : String → Int) (t : String)
    (e₁ e₂ : EventData)
    (h1 : e₁.message_type = e₂.message_type) (h2 : e₁.agent_name = e₂.agent_name)
    (h3 : e₁.content = e₂.content) (h4 : e₁.tool_name = e₂.tool_name)
    (h5 : e₁.tool_display_name = e₂.tool_display_name) :
    processCliEvent h t e₁ = processCliEvent h t e₂ := by
  simp only [processCliEvent, h1, h2, h3, h4, h5]

/-- C2, witness: two events equal except for `raw_message`, processed at the
same time, produce the identical message. -/
theorem processCliEvent_payload_time_deterministic_witness :
    processCliEvent (fun _ => 0) "1.0"
      { message_type := some "ai", agent_name := some "planner",
        content := some "x" } =
    processCliEvent (fun _ => 0) "1.0"
      { message_type := some "ai", agent_name := some "planner",
        content := some "x", raw_message := some "raw" } :=
  processCliEvent_payload_time_deterministic _ _ _ _ rfl rfl rfl rfl rfl

/-- C3: replaying a saved session log re-emits exactly the logged
user_input / agent_response / tool_command / tool_output records, in order,
preserving each record's content and its agent or tool name — none skipped,
none invented — as a pure function of the log (no LLM or tool is called).
Well-formedness asks only that logged agent/tool names are non-empty where
present, as the logger's call sites guarantee. -/
theorem replay_reemits_logged_events (t : String) :
    ∀ L : List MinimalEvent, (∀ e ∈ L, wellFormedEvent e = true) →
      (executeReplay t L).filterMap msgView = L.map logView := by
  intro L
  induction L with
  | nil => intro _; rfl
  | cons e rest ih =>
    intro hwf
    have he : wellFormedEvent e = true := hwf e (List.mem_cons_self e rest)
    have ihr := ih (fun e' h' => hwf e' (List.mem_cons_of_mem e h'))
    simp only [executeReplay] at ihr
    obtain ⟨ety, ts, ct, an, tn⟩ := e
    cases ety with
    | user_input =>
      simp [executeReplay, List.filterMap_cons, convertToFrontendMessage,
        msgView, logView, ihr]
    | agent_response =>
      have ha : truthyStr an = true := by simpa [wellFormedEvent] using he
      simp [executeReplay, List.filterMap_cons, convertToFrontendMessage,
        msgView, logView, ihr, pyOrStr_of_truthy an "Agent" ha]
    | tool_command =>
      have ht : truthyStr tn = true := by simpa [wellFormedEvent] using he
      simp [executeReplay, List.filterMap_cons, convertToFrontendMessage,
        msgView, logView, ihr, pyOrStr_of_truthy tn "Tool" ht]
    | tool_output =>
      have ht : truthyStr tn = true := by simpa [wellFormedEvent] using he
      simp [executeReplay, List.filterMap_cons, convertToFrontendMessage,
        msgView, logView, ihr, pyOrStr_of_truthy tn "Tool" ht]

/-- C3, witness: the theorem applied to a concrete four-event log. -/
theorem replay_reemits_logged_events_witness :
    (∀ e ∈ sampleLog, wellFormedEvent e = true) ∧
    (executeReplay "now" sampleLog).filterMap msgView = sampleLog.map logView :=
  ⟨by decide, replay_reemits_logged_events "now" sampleLog (by decide)⟩

/-- C4: re-processing the same raw event (at any later time, with the
already-emitted message anywhere in the existing list) always yields a
message classified as duplicate: even though the new ID differs, the
`(agent, type, content)` triple matches the earlier message. -/
theorem duplicate_on_reprocess (h : String → Int) (t₁ t₂ : String) (e : EventData)
    (pre post : List PyMsg) :
    isDuplicateMessage (processCliEvent h t₂ e)
      (pre ++ processCliEvent h t₁ e :: post) = true := by
  by_cases c1 : (e.message_type.getD "" == "ai") = true
  · simp only [processCliEvent, if_pos c1]
    refine isDup_of_matching_mid _ _ _ _ ?_ rfl rfl rfl
    apply truthyStr_some_of_pos
    simp only [String.length_append]
    have hlit : 0 < ("ai_" : String).length := by decide
    omega
  · by_cases c2 : (e.message_type.getD "" == "tool") = true
    · simp only [processCliEvent, if_neg c1, if_pos c2]
      refine isDup_of_matching_mid _ _ _ _ ?_ rfl rfl rfl
      apply truthyStr_some_of_pos
      simp only [String.length_append]
      have hlit : 0 < ("tool_" : String).length := by decide
      omega
    · by_cases c3 : (e.message_type.getD "" == "user") = true
      · simp only [processCliEvent, if_neg c1, if_neg c2, if_pos c3]
        refine isDup_of_matching_mid _ _ _ _ ?_ rfl rfl rfl
        apply truthyStr_some_of_pos
        simp only [String.length_append]
        have hlit : 0 < ("user_" : String).length := by decide
        omega
      · simp only [processCliEvent, if_neg c1, if_neg c2, if_neg c3]
        refine isDup_of_matching_mid _ _ _ _ ?_ rfl rfl rfl
        apply truthyStr_some_of_pos
        simp only [String.length_append]
        have hlit : 0 < ("ai_" : String).length := by decide
        omega

/-- C5: `command_execution` is total — every outcome, exceptional or not, is
returned as an ordinary string: either the stripped stdout of the
successfully executed command, or a failure message prefixed `[-]`. -/
theorem commandExecution_error_string_total (exc : Option PyExc) (env : ExecEnv) :
    commandExecution exc env = pyStrip env.execResult.stdout ∨
    ∃ rest, commandExecution exc env = "[-]" ++ rest := by
  cases exc with
  | some e =>
    cases e with
    | fileNotFound =>
      exact Or.inr ⟨" Docker command not found. Is Docker installed and in PATH?", rfl⟩
    | other m ty =>
      refine Or.inr ⟨" Error: " ++ m ++ " (Type: " ++ ty ++ ")", ?_⟩
      simp only [commandExecution, ← String.append_assoc]
      rfl
  | none =>
    by_cases d1 : env.dockerCheck.returncode ≠ 0
    · refine Or.inr ⟨" Docker is not available: " ++ pyStrip env.dockerCheck.stderr, ?_⟩
      simp only [commandExecution, commandExecutionBody, if_pos d1, ← String.append_assoc]
      rfl
    · by_cases d2 : (!(pyIn "attacker" env.containerCheck.stdout)) = true
      · refine Or.inr ⟨" Container 'attacker' does not exist", ?_⟩
        simp only [commandExecution, commandExecutionBody, if_neg d1, if_pos d2]
        rfl
      · by_cases d3 : (!(pyIn "attacker" env.runningCheck.stdout) &&
            env.startResult.returncode ≠ 0) = true
        · refine Or.inr ⟨" Failed to start container 'attacker': " ++
            pyStrip env.startResult.stderr, ?_⟩
          simp only [commandExecution, commandExecutionBody, if_neg d1, if_neg d2,
            if_pos d3, ← String.append_assoc]
          rfl
        · by_cases d4 : env.execResult.returncode ≠ 0
          · refine Or.inr ⟨" Command execution error: " ++
              pyStrip env.execResult.stderr, ?_⟩
            simp only [commandExecution, commandExecutionBody, if_neg d1, if_neg d2,
              if_neg d3, if_pos d4, ← String.append_assoc]
            rfl
          · refine Or.inl ?_
            simp only [commandExecution, commandExecutionBody, if_neg d1, if_neg d2,
              if_neg d3, if_neg d4]

/-- C6, counterexample: the derived user id is not `user_` followed by 16
hex characters — with a 32-character digest (the length of every MD5 hex
digest) the id has 13 characters, not 21. -/
theorem generateUserId_not_hex16 :
    ¬ ∃ s : String, s.length = 16 ∧
      generateUserId (fun _ => "d41d8cd98f00b204e9800998ecf8427e") "fp" "20251012" =
        "user_" ++ s := by
  rintro ⟨s, hlen, heq⟩
  have h13 : (generateUserId (fun _ => "d41d8cd98f00b204e9800998ecf8427e")
      "fp" "20251012").length = 13 := by decide
  rw [heq, String.length_append, hlen] at h13
  rw [show ("user_" : String).length = 5 from rfl] at h13
  omega

/-- C6, amended: the user id equals `user_` followed by the first 8 hex
characters of the MD5 digest of fingerprint + date bucket (13 characters in
total); since it is a pure function of fingerprint and date bucket, two
same-day derivations from the same fingerprint agree. -/
theorem generateUserId_user_hex8 (md5hex : String → String) (fp date : String)
    (hd : (md5hex (fp ++ date)).length = 32) :
    (generateUserId md5hex fp date).length = 13 ∧
    generateUserId md5hex fp date = "user_" ++ pyTake (md5hex (fp ++ date)) 8 := by
  refine ⟨?_, rfl⟩
  unfold generateUserId
  rw [String.length_append]
  have h8 : (pyTake (md5hex (fp ++ date)) 8).length = 8 := by
    show (List.take 8 (md5hex (fp ++ date)).data).length = 8
    rw [List.length_take]
    have h32 : (md5hex (fp ++ date)).data.length = 32 := hd
    omega
  rw [h8]
  decide

/-- C6, witness for the amended theorem at a concrete 32-character digest. -/
theorem generateUserId_user_hex8_witness :
    ((fun _ : String => "d41d8cd98f00b204e9800998ecf8427e")
      ("fp" ++ "20251012")).length = 32 ∧
    (generateUserId (fun _ => "d41d8cd98f00b204e9800998ecf8427e")
      "fp" "20251012").length = 13 ∧
    generateUserId (fun _ => "d41d8cd98f00b204e9800998ecf8427e") "fp" "20251012" =
      "user_" ++ pyTake ((fun _ : String => "d41d8cd98f00b204e9800998ecf8427e")
        ("fp" ++ "20251012")) 8 :=
  ⟨by decide, generateUserId_user_hex8 _ "fp" "20251012" (by decide)⟩

/-- C9: `session_list` is total: a raised exception or timeout yields `[]`,
a non-zero exit of `tmux list-sessions` yields `[]`, and a zero exit yields,
for each non-blank line of the stripped stdout, the stripped first
colon-delimited field. -/
theorem sessionList_total_parse :
    sessionList .raised = [] ∧
    (∀ r : RunResult, r.returncode ≠ 0 → sessionList (.completed r) = []) ∧
    (∀ r : RunResult, r.returncode = 0 →
      sessionList (.completed r) =
        ((pySplit (pyStrip r.stdout) "\n").filter (fun l => !(pyStrip l == ""))).map
          (fun l => pyStrip ((pySplit l ":").headD ""))) := by
  refine ⟨rfl, ?_, ?_⟩
  · intro r h
    simp [sessionList, h]
  · intro r h
    simp [sessionList, h, sessionListLines_eq_filter_map]

/-- C9, witness: the theorem applied to a successful two-session listing
with a blank line. -/
theorem sessionList_total_parse_witness :
    sessionList (.completed ⟨0, "s1: 1 windows\n\ns2: 2 windows", ""⟩) = ["s1", "s2"] := by
  have h := sessionList_total_parse.2.2 ⟨0, "s1: 1 windows\n\ns2: 2 windows", ""⟩ rfl
  rw [h]
  decide

/-- C10, witness: an id-less message is not a duplicate even of an existing
message with the same agent, type and content. -/
theorem falsy_id_never_duplicate_witness :
    isDuplicateMessage
      { type := some "ai", agent_id := some "planner", content := some "x" }
      [{ type := some "ai", agent_id := some "planner", content := some "x",
         id := some "ai_planner_0_1.0" }] = false :=
  falsy_id_never_duplicate _ _ (Or.inl rfl)

end Decepticon
